import Mathlib

/-!
Shallow embedding of the Shaker handshake-recording service
(`src/db.rs`, `src/api.rs`, `src/main.rs`).

The SQLite store is modelled as in-memory lists of rows together with the
auto-increment counters (`last_insert_rowid` semantics) and a logical clock
standing in for the `created_at` column defaults.  Each `Database` method of
`db.rs` becomes a Lean function on this state; fallible re-reads keep their
`Option` result.
-/

namespace Shaker

/-- Row of the `users` table (`struct User` in `db.rs`). -/
structure User where
  id : Int
  resonite_id : Option String
  resonite_name : String
  created_at : Nat
deriving Repr, DecidableEq

/-- Row of the `handshakes` table (`struct Handshake` in `db.rs`). -/
structure Handshake where
  id : Int
  user_id : Int
  world_name : Option String
  created_at : Nat
deriving Repr, DecidableEq

/-- Inbound payload for recording a handshake (`struct HandshakeContext`). -/
structure HandshakeContext where
  id : String
  name : String
  world : String
deriving Repr, DecidableEq

/-- Resonite identity pair (`struct UserResoniteInfo`). -/
structure UserResoniteInfo where
  id : String
  name : String
deriving Repr, DecidableEq

/-- State of the SQLite store reachable through `Database`'s methods. -/
structure Database where
  users : List User
  handshakes : List Handshake
  nextUserId : Int
  nextHandshakeId : Int
  now : Nat
deriving Repr, DecidableEq

/-- Freshly-migrated empty store (rowids start at 1). -/
def Database.empty : Database :=
  { users := [], handshakes := [], nextUserId := 1, nextHandshakeId := 1, now := 0 }

/-- `Database::get_user`: `SELECT * FROM users WHERE id = ?1`, first row if any. -/
def Database.get_user (db : Database) (id : Int) : Option User :=
  db.users.find? (fun u => u.id == id)

/-- `Database::get_user_by_resonite_id`: `SELECT * FROM users WHERE resonite_id = ?1`.
A SQL `NULL` column never equals a bound string, hence the `some` comparison. -/
def Database.get_user_by_resonite_id (db : Database) (id : String) : Option User :=
  db.users.find? (fun u => u.resonite_id == some id)

/-- `Database::get_user_by_resonite_name`: `SELECT * FROM users WHERE resonite_name = ?1`. -/
def Database.get_user_by_resonite_name (db : Database) (name : String) : Option User :=
  db.users.find? (fun u => u.resonite_name == name)

/-- `Database::get_user_by_resonite_info`: lookup by Resonite ID, falling back to
the username lookup when the ID lookup returns no row. -/
def Database.get_user_by_resonite_info (db : Database) (info : UserResoniteInfo) : Option User :=
  match db.get_user_by_resonite_id info.id with
  | some user => some user
  | none => db.get_user_by_resonite_name info.name

/-- `Database::get_all_user_resonite_names`: `SELECT resonite_name FROM users`. -/
def Database.get_all_user_resonite_names (db : Database) : List String :=
  db.users.map User.resonite_name

/-- `Database::create_user`: `INSERT INTO users (resonite_id, resonite_name) VALUES (?1, ?2)`
followed by a re-read of the inserted row via `last_insert_rowid`. -/
def Database.create_user (db : Database) (info : UserResoniteInfo) : Option User × Database :=
  let row : User :=
    { id := db.nextUserId, resonite_id := some info.id,
      resonite_name := info.name, created_at := db.now }
  let db1 : Database :=
    { db with users := db.users ++ [row], nextUserId := db.nextUserId + 1, now := db.now + 1 }
  (db1.get_user row.id, db1)

/-- `Database::update_user`: `UPDATE users SET resonite_id = ?2, resonite_name = ?3 WHERE id = ?1`;
returns whether any row was affected. -/
def Database.update_user (db : Database) (user : User) : Bool × Database :=
  let db1 : Database :=
    { db with users := db.users.map (fun u =>
        if u.id == user.id then
          { u with resonite_id := user.resonite_id, resonite_name := user.resonite_name }
        else u) }
  (db.users.any (fun u => u.id == user.id), db1)

/-- `Database::count_users`: `SELECT COUNT(*) FROM users`. -/
def Database.count_users (db : Database) : Int :=
  Int.ofNat db.users.length

/-- `Database::get_handshake`: `SELECT * FROM handshakes WHERE id = ?1`. -/
def Database.get_handshake (db : Database) (id : Int) : Option Handshake :=
  db.handshakes.find? (fun h => h.id == id)

/-- Condition of `db.rs` line 162 deciding whether a matched user row is rewritten:
the stored Resonite ID is absent, or the stored username differs from the inbound one. -/
def user_needs_update (user : User) (info : UserResoniteInfo) : Bool :=
  user.resonite_id.isNone || user.resonite_name != info.name

/-- User-resolution part of `Database::create_handshake` (lines 155-170): find the user
by Resonite info, rewriting it when `user_needs_update`, or create it when absent. -/
def Database.resolve_user (db : Database) (info : UserResoniteInfo) : Option User × Database :=
  match db.get_user_by_resonite_info info with
  | some user =>
    if user_needs_update user info then
      let user1 : User := { user with resonite_id := some info.id, resonite_name := info.name }
      (some user1, (db.update_user user1).2)
    else
      (some user, db)
  | none => db.create_user info

/-- `Database::create_handshake`: resolve/create/update the user, then
`INSERT INTO handshakes (user_id, world_name) VALUES (?1, ?2)` and re-read the row.
A failed user re-read propagates (the `?` operator) before the handshake insert. -/
def Database.create_handshake (db : Database) (shake : HandshakeContext) :
    Option Handshake × Database :=
  match db.resolve_user { id := shake.id, name := shake.name } with
  | (none, db1) => (none, db1)
  | (some user, db1) =>
    let row : Handshake :=
      { id := db1.nextHandshakeId, user_id := user.id,
        world_name := some shake.world, created_at := db1.now }
    let db2 : Database :=
      { db1 with
        handshakes := db1.handshakes ++ [row]
        nextHandshakeId := db1.nextHandshakeId + 1
        now := db1.now + 1 }
    (db2.get_handshake row.id, db2)

/-- `Database::count_handshakes`: `SELECT COUNT(*) FROM handshakes`. -/
def Database.count_handshakes (db : Database) : Int :=
  Int.ofNat db.handshakes.length

/-- `Database::count_user_handshakes`: `SELECT COUNT(*) FROM handshakes WHERE user_id = ?1`. -/
def Database.count_user_handshakes (db : Database) (id : Int) : Int :=
  Int.ofNat (db.handshakes.filter (fun h => h.user_id == id)).length

/-- The two user-visible error kinds of `api.rs` (`enum Error`). -/
inductive ApiError where
  | Internal
  | NotFound
deriving Repr, DecidableEq

/-- `api::count_handshakes_for_user` handler: resolve the user by Resonite info,
answer `NotFound` when no user matches, otherwise count that user's handshakes. -/
def api_count_handshakes_for_user (db : Database) (info : UserResoniteInfo) :
    Except ApiError Int :=
  match db.get_user_by_resonite_info info with
  | none => Except.error ApiError.NotFound
  | some user => Except.ok (db.count_user_handshakes user.id)

/-- Modelled from the spec: `Database::create_legacy_user` is called by the import
loop in `main.rs` but is not among the provided sources. Per §4.2, the legacy path
"creates or reuses a User purely by `display_name` (no `external_id` reconciliation)". -/
def Database.create_legacy_user (db : Database) (name : String) : User × Database :=
  match db.get_user_by_resonite_name name with
  | some user => (user, db)
  | none =>
    let row : User :=
      { id := db.nextUserId, resonite_id := none, resonite_name := name, created_at := db.now }
    (row, { db with users := db.users ++ [row], nextUserId := db.nextUserId + 1, now := db.now + 1 })

/-- Modelled from the spec: `Database::create_legacy_handshake` is called by the import
loop in `main.rs` but is not among the provided sources. Per §4.2, it "appends one
Handshake with no `world_name`" for the given user. -/
def Database.create_legacy_handshake (db : Database) (userId : Int) : Handshake × Database :=
  let row : Handshake :=
    { id := db.nextHandshakeId, user_id := userId, world_name := none, created_at := db.now }
  (row,
    { db with
      handshakes := db.handshakes ++ [row]
      nextHandshakeId := db.nextHandshakeId + 1
      now := db.now + 1 })

/-- Body of the legacy-import loop in `main.rs` (lines 101-113) for one input name.
Store failures are abstracted by the oracles `failUser`/`failShake`: a failure of
either call is logged and leaves the remaining processing to continue. -/
def importStep (failUser failShake : String → Bool) (db : Database) (name : String) : Database :=
  if failUser name then db
  else
    let res := db.create_legacy_user name
    if failShake name then res.2
    else (res.2.create_legacy_handshake res.1.id).2

/-- The legacy-import loop of `main.rs`: process every line of the input in order. -/
def importRun (failUser failShake : String → Bool) (db : Database) : List String → Database
  | [] => db
  | name :: rest => importRun failUser failShake (importStep failUser failShake db name) rest

/-- States reachable through the store's operations: row ids are unique and
below the respective auto-increment counter. -/
def Database.WF (db : Database) : Prop :=
  (db.users.map User.id).Nodup ∧ (∀ u ∈ db.users, u.id < db.nextUserId) ∧
  (db.handshakes.map Handshake.id).Nodup ∧ (∀ h ∈ db.handshakes, h.id < db.nextHandshakeId)

instance (db : Database) : Decidable db.WF := by
  unfold Database.WF
  infer_instance

/-! ## Helper lemmas -/

theorem find?_append_right {α : Type} {p : α → Bool} {l : List α} (l2 : List α)
    (h : ∀ x ∈ l, p x = false) : (l ++ l2).find? p = l2.find? p := by
  rw [List.find?_append]
  have hnone : l.find? p = none := List.find?_eq_none.mpr (by intro x hx; simp [h x hx])
  rw [hnone, Option.none_or]

theorem create_user_spec {db : Database} (info : UserResoniteInfo)
    (hfresh : ∀ u ∈ db.users, u.id < db.nextUserId) :
    (db.create_user info).1 =
      some { id := db.nextUserId, resonite_id := some info.id,
             resonite_name := info.name, created_at := db.now } := by
  unfold Database.create_user Database.get_user
  dsimp only
  rw [find?_append_right]
  · simp
  · intro u hu
    have hlt := hfresh u hu
    simp only [beq_eq_false_iff_ne, ne_eq]
    omega

theorem get_info_spec {db : Database} {info : UserResoniteInfo} {m : User}
    (h : db.get_user_by_resonite_info info = some m) :
    m ∈ db.users ∧ (m.resonite_id = some info.id ∨ m.resonite_name = info.name) := by
  unfold Database.get_user_by_resonite_info at h
  cases hid : db.get_user_by_resonite_id info.id with
  | some u =>
    rw [hid] at h
    injection h with h
    subst h
    unfold Database.get_user_by_resonite_id at hid
    refine ⟨List.mem_of_find?_eq_some hid, Or.inl ?_⟩
    have hp := List.find?_some hid
    simpa [beq_iff_eq] using hp
  | none =>
    rw [hid] at h
    unfold Database.get_user_by_resonite_name at h
    refine ⟨List.mem_of_find?_eq_some h, Or.inr ?_⟩
    have hp := List.find?_some h
    simpa [beq_iff_eq] using hp

theorem create_handshake_users (db : Database) (shake : HandshakeContext) :
    ((db.create_handshake shake).2).users =
      ((db.resolve_user { id := shake.id, name := shake.name }).2).users := by
  unfold Database.create_handshake
  rcases h : db.resolve_user { id := shake.id, name := shake.name } with ⟨_ | u, db1⟩ <;>
    simp [h]

theorem resolve_user_handshakes (db : Database) (info : UserResoniteInfo) :
    ((db.resolve_user info).2).handshakes = db.handshakes ∧
    ((db.resolve_user info).2).nextHandshakeId = db.nextHandshakeId := by
  unfold Database.resolve_user
  cases h : db.get_user_by_resonite_info info with
  | some m =>
    by_cases hupd : user_needs_update m info <;>
      simp [hupd, Database.update_user, Database.create_user]
  | none => simp [Database.create_user]

theorem resolve_user_isSome {db : Database} (info : UserResoniteInfo)
    (hfresh : ∀ u ∈ db.users, u.id < db.nextUserId) :
    ∃ u, (db.resolve_user info).1 = some u := by
  unfold Database.resolve_user
  cases h : db.get_user_by_resonite_info info with
  | some m =>
    by_cases hupd : user_needs_update m info <;> simp [hupd]
  | none =>
    have hc := create_user_spec info hfresh
    simp [hc]

theorem update_user_frame {db : Database} (v : User) {u : User} (hu : u ∈ db.users) :
    ∃ u2 ∈ ((db.update_user v).2).users, u2.id = u.id ∧ u2.created_at = u.created_at := by
  unfold Database.update_user
  dsimp only
  simp only [List.mem_map]
  refine ⟨_, ⟨u, hu, rfl⟩, ?_, ?_⟩ <;> by_cases h : u.id = v.id <;> simp [h]

theorem resolve_user_frame {db : Database} (info : UserResoniteInfo) {u : User}
    (hu : u ∈ db.users) :
    ∃ u2 ∈ ((db.resolve_user info).2).users, u2.id = u.id ∧ u2.created_at = u.created_at := by
  unfold Database.resolve_user
  cases h : db.get_user_by_resonite_info info with
  | some m =>
    by_cases hupd : user_needs_update m info
    · simpa [hupd] using update_user_frame _ hu
    · exact ⟨u, by simpa [hupd] using hu, rfl, rfl⟩
  | none =>
    refine ⟨u, ?_, rfl, rfl⟩
    simp [Database.create_user]
    exact Or.inl hu

theorem resolve_user_users_shape (db : Database) (info : UserResoniteInfo) :
    (db.get_user_by_resonite_info info = none ∧
      ((db.resolve_user info).2).users = db.users ++
        [{ id := db.nextUserId, resonite_id := some info.id,
           resonite_name := info.name, created_at := db.now }]) ∨
    (∃ m, db.get_user_by_resonite_info info = some m ∧ user_needs_update m info = false ∧
      ((db.resolve_user info).2).users = db.users) ∨
    (∃ m, db.get_user_by_resonite_info info = some m ∧ user_needs_update m info = true ∧
      ((db.resolve_user info).2).users = db.users.map (fun w =>
        if w.id == m.id then
          { w with resonite_id := some info.id, resonite_name := info.name }
        else w)) := by
  unfold Database.resolve_user
  cases hres : db.get_user_by_resonite_info info with
  | none =>
    left
    exact ⟨rfl, by simp [Database.create_user]⟩
  | some m =>
    right
    by_cases hupd : user_needs_update m info
    · right
      exact ⟨m, rfl, hupd, by simp [hupd, Database.update_user]⟩
    · left
      exact ⟨m, rfl, by simpa using hupd, by simp [hupd]⟩

theorem resolve_preserves_present_rid {db : Database} {info : UserResoniteInfo}
    {x : String} {u u2 : User} (hwf : db.WF)
    (hu : u ∈ db.users) (hx : u.resonite_id = some x)
    (hu2 : u2 ∈ ((db.resolve_user info).2).users) (hid : u2.id = u.id) :
    u2.resonite_id = some x := by
  obtain ⟨hnodup, hfresh, -, -⟩ := hwf
  rcases resolve_user_users_shape db info with ⟨hres, hus⟩ | ⟨m, hres, hupd, hus⟩ |
    ⟨m, hres, hupd, hus⟩
  · rw [hus] at hu2
    rcases List.mem_append.mp hu2 with h2 | h2
    · have he : u2 = u := List.inj_on_of_nodup_map hnodup h2 hu hid
      rw [he, hx]
    · simp only [List.mem_singleton] at h2
      subst h2
      exfalso
      have hlt := hfresh u hu
      simp only at hid
      omega
  · rw [hus] at hu2
    have he : u2 = u := List.inj_on_of_nodup_map hnodup hu2 hu hid
    rw [he, hx]
  · rw [hus, List.mem_map] at hu2
    obtain ⟨v, hv, hfv⟩ := hu2
    obtain ⟨hm, hdisj⟩ := get_info_spec hres
    by_cases hvm : v.id = m.id
    · have he : u2 = { v with resonite_id := some info.id, resonite_name := info.name } := by
        rw [← hfv]
        simp [hvm]
      have hvid : v.id = u.id := by rw [← hid, he]
      have hvu : v = u := List.inj_on_of_nodup_map hnodup hv hu hvid
      have hum : u = m := List.inj_on_of_nodup_map hnodup hu hm (by rw [← hvu, hvm])
      rcases hdisj with hA | hB
      · have hxi : some info.id = some x := by rw [← hA, ← hum, hx]
        rw [he]
        simpa using hxi
      · exfalso
        rw [← hum] at hupd hB
        unfold user_needs_update at hupd
        simp [hx, hB] at hupd
    · have he : v = u2 := by
        rw [← hfv]
        simp [hvm]
      have hvu : v = u := List.inj_on_of_nodup_map hnodup hv hu (by rw [he, hid])
      rw [← he, hvu, hx]

/-! ## Claim theorems -/

/-- C1 (counterexample): after `record_handshake("", "Bob", "")` then
`record_handshake("xyz999", "Bob", "")` on an empty store, the single stored user's
`external_id` is the present empty string, not `"xyz999"`: the second call did NOT
update it, because `Some("")` is present, not absent.  The claim's asserted final
state (stored `external_id = "xyz999"`) is therefore false. -/
theorem C1_counterexample_no_self_heal :
    (((Database.empty.create_handshake ⟨"", "Bob", ""⟩).2.create_handshake
        ⟨"xyz999", "Bob", ""⟩).2).users.map User.resonite_id = [some ""] ∧
    ¬ ((((Database.empty.create_handshake ⟨"", "Bob", ""⟩).2.create_handshake
        ⟨"xyz999", "Bob", ""⟩).2).users.map User.resonite_id = [some "xyz999"]) := by
  decide

/-- C1 (amended): for the call sequence `record_handshake("", "Bob", "")` then
`record_handshake("xyz999", "Bob", "")` on an empty store, the first call creates a
User by name whose stored `external_id` is the *present* empty string, and the second
call matches that User by name but performs no update (the stored `external_id` is
present, so the absent-branch does not fire and the `display_name` is unchanged),
leaving exactly one User row with `external_id = Some ""` and two Handshake rows. -/
theorem C1_amended_empty_id_is_present :
    (((Database.empty.create_handshake ⟨"", "Bob", ""⟩).2.create_handshake
        ⟨"xyz999", "Bob", ""⟩).2).users =
      [{ id := 1, resonite_id := some "", resonite_name := "Bob", created_at := 0 }] ∧
    (((Database.empty.create_handshake ⟨"", "Bob", ""⟩).2.create_handshake
        ⟨"xyz999", "Bob", ""⟩).2).handshakes.length = 2 ∧
    (Database.empty.create_handshake ⟨"", "Bob", ""⟩).2.users =
      [{ id := 1, resonite_id := some "", resonite_name := "Bob", created_at := 0 }] := by
  decide

/-- C2 (counterexample): identity resolution does NOT skip the `external_id` lookup
when the given `external_id` is empty.  With a stored user whose `external_id` is the
present empty string (created by `record_handshake("", "Bob", "")`), resolving
`("", "Carol")` matches Bob through the ID lookup, while the name lookup for
`"Carol"` (the claimed fallback) finds nothing. -/
theorem C2_counterexample_empty_id_lookup :
    (Database.empty.create_handshake ⟨"", "Bob", ""⟩).2.get_user_by_resonite_info
        ⟨"", "Carol"⟩ =
      some { id := 1, resonite_id := some "", resonite_name := "Bob", created_at := 0 } ∧
    (Database.empty.create_handshake ⟨"", "Bob", ""⟩).2.get_user_by_resonite_name
        "Carol" = none := by
  decide

/-- C2 (amended): identity resolution always performs the lookup by `external_id`,
even when the given `external_id` is empty (an empty inbound value can then match a
user whose stored `external_id` is the empty string); it falls back to the exact,
case-sensitive `display_name` lookup exactly when the ID lookup finds no row, and
resolution fails only when both lookups find no row. -/
theorem C2_amended_id_lookup_unconditional (db : Database) (info : UserResoniteInfo) :
    (∀ u, db.get_user_by_resonite_id info.id = some u →
      db.get_user_by_resonite_info info = some u) ∧
    (db.get_user_by_resonite_id info.id = none →
      db.get_user_by_resonite_info info = db.get_user_by_resonite_name info.name) ∧
    (db.get_user_by_resonite_info info = none ↔
      (db.get_user_by_resonite_id info.id = none ∧
       db.get_user_by_resonite_name info.name = none)) := by
  refine ⟨?_, ?_, ?_⟩
  · intro u h
    unfold Database.get_user_by_resonite_info
    rw [h]
  · intro h
    unfold Database.get_user_by_resonite_info
    rw [h]
  · unfold Database.get_user_by_resonite_info
    cases h : db.get_user_by_resonite_id info.id <;> simp [h]

/-- C2 (witness for the amended theorem): on the store created by
`record_handshake("", "Bob", "")`, resolving `("", "Carol")` returns Bob through the
unconditional ID lookup. -/
theorem C2_amended_witness :
    (Database.empty.create_handshake ⟨"", "Bob", ""⟩).2.get_user_by_resonite_info
        ⟨"", "Carol"⟩ =
      some { id := 1, resonite_id := some "", resonite_name := "Bob", created_at := 0 } :=
  (C2_amended_id_lookup_unconditional
    (Database.empty.create_handshake ⟨"", "Bob", ""⟩).2 ⟨"", "Carol"⟩).1 _ (by decide)

/-- C3: for every well-formed store, a stored user whose `external_id` is present
(`some x`) never has it changed to anything other than `some x` by
`record_handshake`/`create_handshake`: whatever row carries that user's `id`
afterwards still carries `resonite_id = some x`. -/
theorem C3_external_id_authoritative {db : Database} {shake : HandshakeContext}
    {x : String} {u u2 : User} (hwf : db.WF)
    (hu : u ∈ db.users) (hx : u.resonite_id = some x)
    (hu2 : u2 ∈ ((db.create_handshake shake).2).users) (hid : u2.id = u.id) :
    u2.resonite_id = some x := by
  rw [create_handshake_users] at hu2
  exact resolve_preserves_present_rid hwf hu hx hu2 hid

/-- C3 (witness): store holding Alice with `external_id = some "abc"`; recording a
handshake for `("abc", "Alicia", "w")` rewrites her `display_name` but the row with
her `id` still carries `resonite_id = some "abc"`. -/
theorem C3_witness :
    (⟨1, some "abc", "Alicia", 0⟩ : User).resonite_id = some "abc" :=
  @C3_external_id_authoritative ⟨[⟨1, some "abc", "Alice", 0⟩], [], 2, 1, 0⟩
    ⟨"abc", "Alicia", "w"⟩ "abc" ⟨1, some "abc", "Alice", 0⟩ ⟨1, some "abc", "Alicia", 0⟩
    (by decide) (by decide) rfl (by decide) rfl

/-- C4: recording a handshake twice from an empty store with the same non-empty
`external_id` but a different `display_name` on the second call leaves exactly one
User row, whose `display_name` is the second value and whose `external_id` is
unchanged, and exactly two Handshake rows. -/
theorem C4_same_id_new_name (eid n1 n2 w1 w2 : String) (hid : eid ≠ "") (hname : n1 ≠ n2) :
    (((Database.empty.create_handshake ⟨eid, n1, w1⟩).2.create_handshake
        ⟨eid, n2, w2⟩).2).users =
      [{ id := 1, resonite_id := some eid, resonite_name := n2, created_at := 0 }] ∧
    (((Database.empty.create_handshake ⟨eid, n1, w1⟩).2.create_handshake
        ⟨eid, n2, w2⟩).2).handshakes.length = 2 := by
  have h1 : Database.empty.create_handshake ⟨eid, n1, w1⟩ =
      (some ⟨1, 1, some w1, 1⟩,
       ⟨[⟨1, some eid, n1, 0⟩], [⟨1, 1, some w1, 1⟩], 2, 2, 2⟩) := rfl
  rw [h1]
  have hbne : (n1 != n2) = true := by simp [hname]
  constructor <;>
    simp [Database.create_handshake, Database.resolve_user,
      Database.get_user_by_resonite_info, Database.get_user_by_resonite_id,
      Database.get_user_by_resonite_name, user_needs_update, Database.update_user,
      Database.get_handshake, Database.create_user, List.find?, hbne]

/-- C4 (witness): the scenario instantiated at
`("abc123", "Alice", "w1")` then `("abc123", "Alicia", "w2")`. -/
theorem C4_witness :
    (((Database.empty.create_handshake ⟨"abc123", "Alice", "w1"⟩).2.create_handshake
        ⟨"abc123", "Alicia", "w2"⟩).2).users =
      [{ id := 1, resonite_id := some "abc123", resonite_name := "Alicia", created_at := 0 }] ∧
    (((Database.empty.create_handshake ⟨"abc123", "Alice", "w1"⟩).2.create_handshake
        ⟨"abc123", "Alicia", "w2"⟩).2).handshakes.length = 2 :=
  C4_same_id_new_name "abc123" "Alice" "Alicia" "w1" "w2" (by decide) (by decide)

/-- C5: on a well-formed store, `create_handshake` resolves a user, and the handshake
it returns is exactly the row re-read from the store after insertion (so it carries
the store-assigned `id` and `created_at`), its `user_id` equals the resolved user's
`id`, and its `world_name` is the inbound world name verbatim. -/
theorem C5_round_trip {db : Database} (hwf : db.WF) (shake : HandshakeContext) :
    ∃ u h,
      (db.resolve_user { id := shake.id, name := shake.name }).1 = some u ∧
      (db.create_handshake shake).1 = some h ∧
      ((db.create_handshake shake).2).get_handshake h.id = some h ∧
      h.user_id = u.id ∧ h.world_name = some shake.world ∧
      h ∈ ((db.create_handshake shake).2).handshakes := by
  obtain ⟨-, hufresh, -, hhfresh⟩ := hwf
  obtain ⟨u, hres⟩ := resolve_user_isSome { id := shake.id, name := shake.name } hufresh
  rcases hpair : db.resolve_user { id := shake.id, name := shake.name } with ⟨ou, db1⟩
  have hou : ou = some u := by rw [hpair] at hres; exact hres
  subst hou
  obtain ⟨hh, hnext⟩ := resolve_user_handshakes db { id := shake.id, name := shake.name }
  rw [hpair] at hh hnext
  have hh1 : db1.handshakes = db.handshakes := hh
  have hnext1 : db1.nextHandshakeId = db.nextHandshakeId := hnext
  refine ⟨u, ⟨db1.nextHandshakeId, u.id, some shake.world, db1.now⟩, ?_, ?_⟩
  · rfl
  · unfold Database.create_handshake
    rw [hpair]
    dsimp only
    unfold Database.get_handshake
    dsimp only
    have hre : (db1.handshakes ++
        [(⟨db1.nextHandshakeId, u.id, some shake.world, db1.now⟩ : Handshake)]).find?
          (fun h => h.id == db1.nextHandshakeId) =
        some ⟨db1.nextHandshakeId, u.id, some shake.world, db1.now⟩ := by
      rw [find?_append_right]
      · simp
      · intro h hmem
        rw [hh1] at hmem
        have hlt := hhfresh h hmem
        rw [hnext1]
        simp only [beq_eq_false_iff_ne, ne_eq]
        omega
    refine ⟨hre, hre, rfl, rfl, ?_⟩
    simp

/-- C5 (witness): the round-trip property instantiated on the empty store with
`record_handshake("a", "A", "W")`. -/
theorem C5_witness :
    ∃ u h,
      (Database.empty.resolve_user { id := "a", name := "A" }).1 = some u ∧
      (Database.empty.create_handshake ⟨"a", "A", "W"⟩).1 = some h ∧
      ((Database.empty.create_handshake ⟨"a", "A", "W"⟩).2).get_handshake h.id = some h ∧
      h.user_id = u.id ∧ h.world_name = some "W" ∧
      h ∈ ((Database.empty.create_handshake ⟨"a", "A", "W"⟩).2).handshakes :=
  C5_round_trip (by decide) ⟨"a", "A", "W"⟩

/-- C6: the `count_handshakes_for_user` handler answers `NotFound` (an error kind
distinct from `Internal`) exactly when the `(external_id, display_name)` pair
resolves to no stored user, and answers the integer `0` (not an error) when the
resolved user has no handshake rows. -/
theorem C6_count_for_user (db : Database) (info : UserResoniteInfo) :
    (api_count_handshakes_for_user db info = Except.error ApiError.NotFound ↔
      db.get_user_by_resonite_info info = none) ∧
    (ApiError.NotFound ≠ ApiError.Internal) ∧
    (∀ u, db.get_user_by_resonite_info info = some u →
      (∀ h ∈ db.handshakes, h.user_id ≠ u.id) →
      api_count_handshakes_for_user db info = Except.ok 0) := by
  refine ⟨?_, by decide, ?_⟩
  · unfold api_count_handshakes_for_user
    cases h : db.get_user_by_resonite_info info <;> simp [h]
  · intro u hu hnone
    have hfil : db.handshakes.filter (fun h => h.user_id == u.id) = [] := by
      rw [List.filter_eq_nil_iff]
      intro a ha
      simp only [beq_iff_eq]
      exact hnone a ha
    simp [api_count_handshakes_for_user, Database.count_user_handshakes, hu, hfil]

/-- C6 (witness): a store holding one user and no handshakes answers `0`; the empty
store answers `NotFound` for the same pair. -/
theorem C6_witness :
    api_count_handshakes_for_user ⟨[⟨1, some "a", "A", 0⟩], [], 2, 1, 0⟩ ⟨"a", "A"⟩ =
      Except.ok 0 ∧
    api_count_handshakes_for_user Database.empty ⟨"a", "A"⟩ =
      Except.error ApiError.NotFound :=
  ⟨(C6_count_for_user ⟨[⟨1, some "a", "A", 0⟩], [], 2, 1, 0⟩ ⟨"a", "A"⟩).2.2
      ⟨1, some "a", "A", 0⟩ (by decide) (by decide),
   (C6_count_for_user Database.empty ⟨"a", "A"⟩).1.mpr (by decide)⟩

/-- C7: no operation changes a stored user's `id` or `created_at`:
after `create_handshake` (including its in-place resolution update), after a direct
`update_user`, and after `create_user`, some row still carries the old row's `id`
with its `created_at` unchanged — only `resonite_id`/`resonite_name` are mutated. -/
theorem C7_id_created_at_immutable {db : Database} (shake : HandshakeContext)
    (v : User) (info : UserResoniteInfo) {u : User} (hu : u ∈ db.users) :
    (∃ u2 ∈ ((db.create_handshake shake).2).users,
      u2.id = u.id ∧ u2.created_at = u.created_at) ∧
    (∃ u3 ∈ ((db.update_user v).2).users,
      u3.id = u.id ∧ u3.created_at = u.created_at) ∧
    (∃ u4 ∈ ((db.create_user info).2).users,
      u4.id = u.id ∧ u4.created_at = u.created_at) := by
  refine ⟨?_, update_user_frame v hu, ?_⟩
  · rw [create_handshake_users]
    exact resolve_user_frame _ hu
  · refine ⟨u, ?_, rfl, rfl⟩
    simp [Database.create_user]
    exact Or.inl hu

/-- C7 (witness): the frame property instantiated on a one-user store for a
handshake that rewrites the user's name, a direct update and a fresh insert. -/
theorem C7_witness :
    (∃ u2 ∈ (((⟨[⟨1, some "a", "A", 0⟩], [], 2, 1, 0⟩ : Database).create_handshake
        ⟨"a", "B", "w"⟩).2).users,
      u2.id = (⟨1, some "a", "A", 0⟩ : User).id ∧
      u2.created_at = (⟨1, some "a", "A", 0⟩ : User).created_at) ∧
    (∃ u3 ∈ (((⟨[⟨1, some "a", "A", 0⟩], [], 2, 1, 0⟩ : Database).update_user
        ⟨1, some "b", "B", 9⟩).2).users,
      u3.id = (⟨1, some "a", "A", 0⟩ : User).id ∧
      u3.created_at = (⟨1, some "a", "A", 0⟩ : User).created_at) ∧
    (∃ u4 ∈ (((⟨[⟨1, some "a", "A", 0⟩], [], 2, 1, 0⟩ : Database).create_user
        ⟨"c", "C"⟩).2).users,
      u4.id = (⟨1, some "a", "A", 0⟩ : User).id ∧
      u4.created_at = (⟨1, some "a", "A", 0⟩ : User).created_at) :=
  C7_id_created_at_immutable ⟨"a", "B", "w"⟩ ⟨1, some "b", "B", 9⟩ ⟨"c", "C"⟩ (by decide)

/-- C8: in the legacy bulk import, a failure to create the user for a name, or a
failure to create that name's handshake, is skipped and processing continues with
the remaining names: the run over `name :: rest` continues as the run over `rest`
(from the state the failing name left behind) and never aborts. -/
theorem C8_import_continues (failUser failShake : String → Bool) (db : Database)
    (name : String) (rest : List String) :
    (failUser name = true →
      importRun failUser failShake db (name :: rest) =
        importRun failUser failShake db rest) ∧
    (failUser name = false → failShake name = true →
      importRun failUser failShake db (name :: rest) =
        importRun failUser failShake ((db.create_legacy_user name).2) rest) := by
  have hcons : importRun failUser failShake db (name :: rest) =
      importRun failUser failShake (importStep failUser failShake db name) rest := rfl
  constructor
  · intro h
    rw [hcons]
    unfold importStep
    rw [h]
    simp
  · intro h1 h2
    rw [hcons]
    unfold importStep
    rw [h1, h2]
    simp

/-- C8 (witness): a run whose user-creation fails on the first name equals the run
over the remaining names. -/
theorem C8_witness :
    importRun (fun _ => true) (fun _ => false) Database.empty ("a" :: ["b"]) =
      importRun (fun _ => true) (fun _ => false) Database.empty ["b"] :=
  (C8_import_continues (fun _ => true) (fun _ => false) Database.empty "a" ["b"]).1 rfl

/-- C9: `count_users` is the total number of User rows and `count_handshakes` the
total number of Handshake rows; after `record_handshake("abc123", "Alice", "HubWorld")`
on the empty store both counts are 1, the single user carries
`external_id = "abc123"` and `display_name = "Alice"`, and the single handshake
carries `world_name = "HubWorld"`. -/
theorem C9_counts :
    (∀ db : Database, db.count_users = Int.ofNat db.users.length ∧
      db.count_handshakes = Int.ofNat db.handshakes.length) ∧
    (Database.empty.create_handshake ⟨"abc123", "Alice", "HubWorld"⟩).2.count_users = 1 ∧
    (Database.empty.create_handshake ⟨"abc123", "Alice", "HubWorld"⟩).2.count_handshakes = 1 ∧
    (Database.empty.create_handshake ⟨"abc123", "Alice", "HubWorld"⟩).2.users.map
      (fun u => (u.resonite_id, u.resonite_name)) = [(some "abc123", "Alice")] ∧
    (Database.empty.create_handshake ⟨"abc123", "Alice", "HubWorld"⟩).2.handshakes.map
      Handshake.world_name = [some "HubWorld"] :=
  ⟨fun _ => ⟨rfl, rfl⟩, by decide⟩

/-- C10: a user created through the handshake-recording path (`create_user`) always
stores the inbound `external_id` as a present value — including the present empty
string when the inbound value is empty — and consequently for any user whose stored
`external_id` is present the absent-branch of the self-heal condition never fires:
the update condition collapses to the `display_name` comparison alone. -/
theorem C10_created_id_always_present :
    (∀ (db : Database) (info : UserResoniteInfo),
      (∀ u ∈ db.users, u.id < db.nextUserId) →
      (db.create_user info).1 =
        some { id := db.nextUserId, resonite_id := some info.id,
               resonite_name := info.name, created_at := db.now }) ∧
    (∀ (u : User) (info : UserResoniteInfo) (x : String),
      u.resonite_id = some x →
      user_needs_update u info = (u.resonite_name != info.name)) := by
  constructor
  · intro db info h
    exact create_user_spec info h
  · intro u info x hx
    simp [user_needs_update, hx]

/-- C10 (witness): creating a user from the inbound pair `("", "Bob")` stores
`external_id = Some ""` (present, not absent), and the self-heal condition for a
user with a present `external_id` reduces to the name comparison. -/
theorem C10_witness :
    (Database.empty.create_user ⟨"", "Bob"⟩).1 =
      some { id := 1, resonite_id := some "", resonite_name := "Bob", created_at := 0 } ∧
    user_needs_update ⟨1, some "", "Bob", 0⟩ ⟨"xyz999", "Bob"⟩ =
      ((⟨1, some "", "Bob", 0⟩ : User).resonite_name != "Bob") :=
  ⟨C10_created_id_always_present.1 Database.empty ⟨"", "Bob"⟩ (by decide),
   C10_created_id_always_present.2 ⟨1, some "", "Bob", 0⟩ ⟨"xyz999", "Bob"⟩ "" rfl⟩

end Shaker
